import Mathlib

/-!
# Verification of the CostAgent request-orchestration pipeline

A shallow embedding of the core of the CostAgent repository
(`core/semantic_compressor.py`, `core/probabilistic_router.py`,
`core/token_estimator.py`, `core/quality_evaluator.py`,
`core/agent_loop.py`, `memory/log_handler.py`, `memory/db.py`)
together with proofs about the natural-language specification's claims.

Modelling conventions:
* Python strings are Lean `String`s; where convenient, text processing is
  done on the underlying `List Char`.
* Monetary costs (Python floats) are modelled as rationals `ℚ`; the claims
  settled here do not depend on floating-point rounding.
* External collaborators (the litellm tokenizer/pricing oracle, the
  completion provider, the judge model, `json.loads` / `re.search`
  outcomes) are parameters of the model; a raised Python exception is an
  `Except.error` outcome carrying the exception's type name and message.
* The SQLite run store is a `List Row`; `insert` appends and returns a
  sequential row id, `SUM(total_cost)` is a list sum.  Wall-clock fields
  (`timestamp`, `latency_ms`) and the random `trace_id` are omitted.
-/

namespace CostAgent

/-! ## Compressor — `core/semantic_compressor.py`

`compress` collapses whitespace runs, strips the ends, removes words whose
lowercase form is in a fixed stopword set, and rejoins with single spaces.
Because Python's `text.split()` (no separator) itself splits on arbitrary
whitespace runs and drops empty pieces, the whole transform is: split the
raw text into whitespace-free words, filter out stopwords, join with `' '`.
-/

/-- Whitespace characters recognised by Python's `str.split()` / `\s`
(ASCII range: space, tab, newline, carriage return, vertical tab, form feed). -/
def isWs (c : Char) : Bool :=
  c = ' ' || c = '\t' || c = '\n' || c = '\r' || c = Char.ofNat 11 || c = Char.ofNat 12

/-- Accumulator worker for `pyWords`: `acc` holds the current in-progress
word, reversed. -/
def wordsAux : List Char → List Char → List (List Char)
  | [], acc => if acc.isEmpty then [] else [acc.reverse]
  | c :: cs, acc =>
    if isWs c then
      if acc.isEmpty then wordsAux cs [] else acc.reverse :: wordsAux cs []
    else
      wordsAux cs (c :: acc)

/-- Python `text.split()` with no separator: maximal whitespace-free runs. -/
def pyWords (l : List Char) : List (List Char) := wordsAux l []

/-- Python `' '.join(words)` on character lists. -/
def unwords : List (List Char) → List Char
  | [] => []
  | [w] => w
  | w :: ws => w ++ ' ' :: unwords ws

/-- The fixed stopword set of `SemanticCompressor.__init__`. -/
def stopwords : List String := ["the", "a", "an", "and", "of", "in", "to", "is", "on"]

/-- `w.lower() in self.stopwords` for a word given as a character list. -/
def isStopword (w : List Char) : Bool :=
  stopwords.contains (String.mk (w.map Char.toLower))

/-- The word list kept by `compress`: split, then drop stopwords. -/
def compressWords (l : List Char) : List (List Char) :=
  (pyWords l).filter (fun w => !(isStopword w))

/-- `SemanticCompressor.compress(prompt_text)` (no `max_tokens`), on
character lists. -/
def compressL (l : List Char) : List Char := unwords (compressWords l)

/-- `SemanticCompressor.compress(prompt_text, max_tokens)`.  Note Python's
`if max_tokens:` treats `None` and `0` alike (no truncation). -/
def compressFull (l : List Char) (maxTokens : Option Nat) : List Char :=
  let ct := compressL l
  match maxTokens with
  | none => ct
  | some n => if n = 0 then ct else unwords ((pyWords ct).take n)

/-- `SemanticCompressor.compress` on `String`, as used by the agent loop. -/
def compressS (s : String) : String := String.mk (compressL s.data)

/-! ### Compressor lemmas -/

theorem wordsAux_append_word (w : List Char) (hw : ∀ c ∈ w, ¬ isWs c) :
    ∀ (l acc : List Char), wordsAux (w ++ l) acc = wordsAux l (w.reverse ++ acc) := by
  induction w with
  | nil => intro l acc; simp [wordsAux]
  | cons c w ih =>
    intro l acc
    have hc : isWs c = false := by simpa using hw c (by simp)
    have hw' : ∀ c' ∈ w, ¬ isWs c' := fun c' hc' => hw c' (by simp [hc'])
    simp only [List.cons_append, wordsAux, hc, Bool.false_eq_true, if_false]
    show wordsAux (w ++ l) (c :: acc) = wordsAux l ((c :: w).reverse ++ acc)
    rw [ih hw' l (c :: acc)]
    simp

theorem pyWords_unwords (ws : List (List Char))
    (hne : ∀ w ∈ ws, w ≠ []) (hws : ∀ w ∈ ws, ∀ c ∈ w, ¬ isWs c) :
    pyWords (unwords ws) = ws := by
  induction ws with
  | nil => rfl
  | cons w ws ih =>
    have hwne : w ≠ [] := hne w (by simp)
    have hwws : ∀ c ∈ w, ¬ isWs c := hws w (by simp)
    cases ws with
    | nil =>
      have h1 := wordsAux_append_word w hwws [] []
      simp only [List.append_nil] at h1
      show wordsAux w [] = [w]
      rw [h1]
      simp [wordsAux, List.isEmpty_iff, hwne]
    | cons v vs =>
      have ih' : pyWords (unwords (v :: vs)) = v :: vs :=
        ih (fun u hu => hne u (by simp [hu])) (fun u hu => hws u (by simp [hu]))
      show wordsAux (w ++ ' ' :: unwords (v :: vs)) [] = w :: v :: vs
      rw [wordsAux_append_word w hwws _ []]
      simp only [List.append_nil]
      have hsp : isWs ' ' = true := by decide
      simp only [wordsAux, hsp, if_true]
      have hne' : ¬ (w.reverse.isEmpty = true) := by simp [List.isEmpty_iff, hwne]
      rw [if_neg hne']
      simp only [List.reverse_reverse]
      exact congrArg (w :: ·) ih'

theorem wordsAux_words_wf :
    ∀ (l acc : List Char), (∀ c ∈ acc, ¬ isWs c) →
      ∀ w ∈ wordsAux l acc, w ≠ [] ∧ ∀ c ∈ w, ¬ isWs c := by
  intro l
  induction l with
  | nil =>
    intro acc hacc w hw
    by_cases h : acc = []
    · subst h; simp [wordsAux] at hw
    · simp only [wordsAux, List.isEmpty_iff, if_neg h, List.mem_singleton] at hw
      subst hw
      refine ⟨by simpa using h, ?_⟩
      intro c hc
      exact hacc c (by simpa using hc)
  | cons c cs ih =>
    intro acc hacc w hw
    by_cases hcws : isWs c
    · by_cases h : acc = []
      · subst h
        simp only [wordsAux, hcws, if_pos, List.isEmpty_nil, if_true] at hw
        exact ih [] (by simp) w hw
      · simp only [wordsAux, hcws, if_pos, List.isEmpty_iff, if_neg h, List.mem_cons] at hw
        rcases hw with hw | hw
        · subst hw
          refine ⟨by simpa using h, ?_⟩
          intro c' hc'
          exact hacc c' (by simpa using hc')
        · exact ih [] (by simp) w hw
    · simp only [wordsAux, hcws, if_neg, Bool.false_eq_true, if_false] at hw
      refine ih (c :: acc) ?_ w hw
      intro c' hc'
      rcases List.mem_cons.mp hc' with h | h
      · subst h; exact hcws
      · exact hacc c' h

theorem pyWords_wf (l : List Char) :
    ∀ w ∈ pyWords l, w ≠ [] ∧ ∀ c ∈ w, ¬ isWs c :=
  wordsAux_words_wf l [] (by simp)

theorem compressL_idem (l : List Char) : compressL (compressL l) = compressL l := by
  have hwf := pyWords_wf l
  have hsub : ∀ w ∈ compressWords l, w ≠ [] ∧ ∀ c ∈ w, ¬ isWs c := by
    intro w hw
    exact hwf w (List.mem_of_mem_filter hw)
  have hsplit : pyWords (unwords (compressWords l)) = compressWords l :=
    pyWords_unwords _ (fun w hw => (hsub w hw).1) (fun w hw => (hsub w hw).2)
  have h1 : compressWords (compressL l) = compressWords l := by
    have h2 : compressWords (compressL l) = (compressWords l).filter (fun w => !(isStopword w)) := by
      show (pyWords (unwords (compressWords l))).filter (fun w => !(isStopword w)) = _
      rw [hsplit]
    rw [h2]
    unfold compressWords
    rw [List.filter_filter]
    simp only [Bool.and_self]
  show unwords (compressWords (compressL l)) = unwords (compressWords l)
  rw [h1]

/-- C9: `compress` (without `max_tokens`) is a total Lean function (hence
never fails), maps empty input to empty output, and is idempotent. -/
theorem compress_empty_and_idempotent :
    compressS "" = "" ∧ ∀ t : String, compressS (compressS t) = compressS t := by
  constructor
  · rfl
  · intro t
    show String.mk (compressL (String.mk (compressL t.data)).data) = _
    exact congrArg String.mk (compressL_idem t.data)

/-! ## Python exceptions

A raised Python exception, reduced to its type name (`type(e).__name__`)
and its message (`str(e)`). -/

structure PyErr where
  ename : String
  emsg : String
deriving DecidableEq

/-! ## Router — `core/probabilistic_router.py`

`route_task` scans the model table (a Python `dict`, insertion-ordered,
modelled as an association list) for the first entry whose `"level"` field
equals the requested level; otherwise it falls back to
`max(config, key=level)`, which returns the first entry among those with
the numerically highest level (entries without a `"level"` key count as
level 0 in the fallback).  On an empty table, Python's `max` raises
`ValueError`. -/

/-- One value of the model table: only the `"level"` field is read by the
router (`info.get("level")`); the other JSON fields (display name, cost
tier, prices, provider) are never consulted by the code under scrutiny. -/
structure ModelInfo where
  level : Option Int
deriving DecidableEq

abbrev ModelTable := List (String × ModelInfo)

/-- Python `max(table, key=level)`: left fold keeping the current maximum,
replacing it only on strictly greater keys — hence the first entry among
ties is returned. -/
def pyMaxByLevel (p : String × ModelInfo) (ps : ModelTable) : String × ModelInfo :=
  ps.foldl (fun a b => if a.2.level.getD 0 < b.2.level.getD 0 then b else a) p

/-- `ProbabilisticRouter.route_task` -/
def route_task (table : ModelTable) (task_level : Int) : Except PyErr String :=
  match table.find? (fun p => p.2.level == some task_level) with
  | some p => .ok p.1
  | none =>
    match table with
    | [] => .error ⟨"ValueError", "max() arg is an empty sequence"⟩
    | p :: ps => .ok (pyMaxByLevel p ps).1

/-- The level key used by the router's fallback. -/
def levelKey (p : String × ModelInfo) : Int := p.2.level.getD 0

theorem pyMaxByLevel_step (p b : String × ModelInfo) (ps : ModelTable) :
    pyMaxByLevel p (b :: ps) =
      pyMaxByLevel (if levelKey p < levelKey b then b else p) ps := rfl

theorem pyMaxByLevel_mem (p : String × ModelInfo) (ps : ModelTable) :
    pyMaxByLevel p ps ∈ p :: ps := by
  induction ps generalizing p with
  | nil => simp [pyMaxByLevel]
  | cons b ps ih =>
    rw [pyMaxByLevel_step]
    have h := ih (if levelKey p < levelKey b then b else p)
    rcases List.mem_cons.mp h with h | h
    · rw [h]
      by_cases hlt : levelKey p < levelKey b
      · simp [hlt]
      · simp [hlt]
    · simp [h]

theorem pyMaxByLevel_le (p : String × ModelInfo) (ps : ModelTable) :
    ∀ q ∈ p :: ps, levelKey q ≤ levelKey (pyMaxByLevel p ps) := by
  induction ps generalizing p with
  | nil =>
    intro q hq
    rcases List.mem_cons.mp hq with h | h
    · rw [h]; exact le_refl _
    · simp at h
  | cons b ps ih =>
    intro q hq
    rw [pyMaxByLevel_step]
    have hstep_p : levelKey p ≤ levelKey (if levelKey p < levelKey b then b else p) := by
      by_cases hlt : levelKey p < levelKey b
      · simp [hlt]; exact le_of_lt hlt
      · simp [hlt]
    have hstep_b : levelKey b ≤ levelKey (if levelKey p < levelKey b then b else p) := by
      by_cases hlt : levelKey p < levelKey b
      · simp [hlt]
      · simp [hlt]; exact le_of_not_lt hlt
    have hhead := ih (if levelKey p < levelKey b then b else p)
      (if levelKey p < levelKey b then b else p) (by simp)
    rcases List.mem_cons.mp hq with h | h
    · rw [h]; exact le_trans hstep_p hhead
    · rcases List.mem_cons.mp h with h | h
      · rw [h]; exact le_trans hstep_b hhead
      · exact ih _ q (List.mem_cons_of_mem _ h)

/-- C8: on a non-empty table, `route_task` returns (without failing) a model
id present in the table — the first entry whose level equals the requested
one when such an entry exists, and otherwise the id of an entry whose
level is numerically maximal over the whole table; on an empty table it
fails with a `ValueError` (a configuration error). -/
theorem route_task_spec (table : ModelTable) (lvl : Int) :
    (table = [] → route_task table lvl = .error ⟨"ValueError", "max() arg is an empty sequence"⟩) ∧
    (table ≠ [] → ∃ id, route_task table lvl = .ok id ∧ id ∈ table.map Prod.fst ∧
      (∀ p, table.find? (fun q => q.2.level == some lvl) = some p → id = p.1) ∧
      (table.find? (fun q => q.2.level == some lvl) = none →
        ∃ info, (id, info) ∈ table ∧
          ∀ q ∈ table, levelKey q ≤ levelKey (id, info))) := by
  constructor
  · intro h
    subst h
    rfl
  · intro hne
    cases hfind : table.find? (fun q => q.2.level == some lvl) with
    | some e =>
      refine ⟨e.1, ?_, ?_, ?_, ?_⟩
      · unfold route_task
        rw [hfind]
      · exact List.mem_map.mpr ⟨e, List.mem_of_find?_eq_some hfind, rfl⟩
      · intro p' hp'
        cases hp'
        rfl
      · intro hnone
        exact Option.noConfusion hnone
    | none =>
      cases table with
      | nil => exact absurd rfl hne
      | cons p ps =>
        refine ⟨(pyMaxByLevel p ps).1, ?_, ?_, ?_, ?_⟩
        · unfold route_task
          rw [hfind]
        · exact List.mem_map.mpr ⟨pyMaxByLevel p ps, pyMaxByLevel_mem p ps, rfl⟩
        · intro p' hp'
          exact Option.noConfusion hp'
        · intro _
          refine ⟨(pyMaxByLevel p ps).2, ?_, ?_⟩
          · exact pyMaxByLevel_mem p ps
          · intro q hq
            exact pyMaxByLevel_le p ps q hq

/-- A small concrete model table mirroring `tests/test_router.py`'s mock
configuration (ids shortened). -/
def demoTable : ModelTable :=
  [("deepseek/deepseek-chat", ⟨some 1⟩), ("gpt-4o", ⟨some 2⟩),
   ("anthropic/claude-sonnet-4", ⟨some 3⟩)]

/-- Witness for C8: instantiating `route_task_spec` at the demo table and
level 99 (no matching entry) yields the highest-level entry. -/
theorem route_task_spec_witness :
    demoTable ≠ [] ∧
    ∃ id, route_task demoTable 99 = .ok id ∧ id ∈ demoTable.map Prod.fst ∧
      (∀ p, demoTable.find? (fun q => q.2.level == some 99) = some p → id = p.1) ∧
      (demoTable.find? (fun q => q.2.level == some 99) = none →
        ∃ info, (id, info) ∈ demoTable ∧
          ∀ q ∈ demoTable, levelKey q ≤ levelKey (id, info)) :=
  ⟨by decide, (route_task_spec demoTable 99).2 (by decide)⟩

/-! ## Cost estimator — `core/token_estimator.py`

`TokenEstimator.estimate` counts prompt tokens via the litellm tokenizer,
then asks `litellm.cost_per_token` for a `(prompt_cost, completion_cost)`
pair.  The call is wrapped in `try/except (NotFoundError, Exception)`,
i.e. *every* pricing failure (in particular an unknown model id) degrades
to `(0.0, 0.0)`.  We model the two litellm calls as an oracle; a pricing
result of `none` stands for any raised exception. -/

structure PricingOracle where
  /-- `litellm.token_counter(model, messages)` for a one-message prompt. -/
  count_tokens : String → String → Nat
  /-- `litellm.cost_per_token(model, prompt_tokens, completion_tokens)`:
  `none` models a raised exception (e.g. `NotFoundError` for an unknown
  model), which `estimate` catches. -/
  cost_per_token : String → Nat → Nat → Option (ℚ × ℚ)

structure CostEstimate where
  model : String
  prompt_tokens : Nat
  output_tokens : Nat
  prompt_cost : ℚ
  completion_cost : ℚ
  total_cost : ℚ
deriving DecidableEq

/-- `TokenEstimator.estimate` -/
def estimate (o : PricingOracle) (prompt_text : String)
    (expected_output_tokens : Nat) (model_name : String) : CostEstimate :=
  let prompt_tokens := o.count_tokens model_name prompt_text
  let costs := (o.cost_per_token model_name prompt_tokens expected_output_tokens).getD (0, 0)
  { model := model_name
    prompt_tokens := prompt_tokens
    output_tokens := expected_output_tokens
    prompt_cost := costs.1
    completion_cost := costs.2
    total_cost := costs.1 + costs.2 }

/-- C7: when the pricing oracle has no entry for the model (its pricing
call raises), `estimate` still returns a value — with zero prompt cost,
zero completion cost and hence zero total cost. -/
theorem estimate_unknown_model_zero (o : PricingOracle) (text : String)
    (out_toks : Nat) (model : String)
    (h : o.cost_per_token model (o.count_tokens model text) out_toks = none) :
    (estimate o text out_toks model).prompt_cost = 0 ∧
    (estimate o text out_toks model).completion_cost = 0 ∧
    (estimate o text out_toks model).total_cost = 0 := by
  simp [estimate, h]

/-- An oracle with no priced models at all (every pricing call raises). -/
def unpricedOracle : PricingOracle :=
  { count_tokens := fun _ text => text.length
    cost_per_token := fun _ _ _ => none }

/-- Witness for C7 at a concrete unknown model. -/
theorem estimate_unknown_model_zero_witness :
    unpricedOracle.cost_per_token "mystery-model"
        (unpricedOracle.count_tokens "mystery-model" "hello world") 50 = none ∧
    (estimate unpricedOracle "hello world" 50 "mystery-model").prompt_cost = 0 ∧
    (estimate unpricedOracle "hello world" 50 "mystery-model").completion_cost = 0 ∧
    (estimate unpricedOracle "hello world" 50 "mystery-model").total_cost = 0 :=
  ⟨rfl, estimate_unknown_model_zero unpricedOracle "hello world" 50 "mystery-model" rfl⟩

/-! ## Quality evaluator — `core/quality_evaluator.py`

`QualityEvaluator.evaluate` calls the judge model, computes the judge
call's cost, and parses the reply with `_parse_score`.  The whole body is
wrapped in `try/except Exception`, which yields the fail-open result
`{score: 10, reason: "eval_error: …", eval_cost: 0.0}`.

`_parse_score` first attempts `json.loads(raw.strip())` followed by
`int(data["score"])` and `data.get("reason", "")`, catching only
`JSONDecodeError`, `KeyError` and `ValueError` (so e.g. a `TypeError`
from a non-dict JSON value escapes to `evaluate`'s handler); on the
caught failures it falls back to `re.search(r'"?score"?\s*[:=]\s*(\d+)')`
capping the extracted value at 10; failing that it returns 10 with a
`parse_error` reason.  The `json`/`re` library outcomes are modelled as
data supplied with the judge reply. -/

/-- Outcome of the strict-JSON stage of `_parse_score` on a raw reply:
* `ok score reason` — `json.loads` succeeded on a dict whose `"score"`
  converts to `int` (e.g. raw `'\x7b"score": 7, "reason": "good"\x7d'`
  gives `ok 7 "good"`; note `int()` does **not** clamp);
* `softFail` — a `JSONDecodeError`, `KeyError` or `ValueError` was raised
  and caught, so control falls through to the regex stage;
* `hardFail` — some other exception (a `TypeError` from subscripting a
  non-dict value such as raw `"5"`) escapes `_parse_score`. -/
inductive JsonOutcome where
  | ok (score : Int) (reason : String)
  | softFail
  | hardFail (e : PyErr)
deriving DecidableEq

/-- A completed judge call: the litellm reply text together with the
modelled `json`/`re` outcomes on it and the judge call's cost. -/
structure JudgeReply where
  /-- Strict-JSON parse outcome on `raw.strip()`. -/
  json : JsonOutcome
  /-- `re.search(r'"?score"?\s*[:=]\s*(\d+)', raw)`: the first matched
  digit group, if any (`\d+` only matches non-negative integers). -/
  regexScore : Option Nat
  /-- The raw reply text `result.choices[0].message.content or ""`. -/
  raw : String
  /-- `litellm.completion_cost(completion_response=result)`. -/
  cost : ℚ

/-- Python `str.strip()` (whitespace from both ends). -/
def pyStrip (s : String) : String :=
  String.mk (((s.data.dropWhile isWs).reverse.dropWhile isWs).reverse)

/-- `QualityEvaluator._parse_score`; an `Except.error` is an exception
escaping `_parse_score` (caught by `evaluate`). -/
def parse_score (r : JudgeReply) : Except PyErr (Int × String) :=
  match r.json with
  | .ok score reason => .ok (score, reason)
  | .hardFail e => .error e
  | .softFail =>
    match r.regexScore with
    | some k => .ok (min (k : Int) 10, (pyStrip r.raw).take 100)
    | none => .ok (10, "parse_error: " ++ (pyStrip r.raw).take 100)

structure EvalResult where
  score : Int
  reason : String
  eval_cost : ℚ
deriving DecidableEq

/-- `QualityEvaluator.evaluate`.  Its input is the outcome of the judge
call (`litellm.completion` + `litellm.completion_cost`): `Except.error`
models any exception raised by those calls. -/
def evaluate (call : Except PyErr JudgeReply) : EvalResult :=
  match call with
  | .error e => { score := 10, reason := "eval_error: " ++ e.emsg.take 100, eval_cost := 0 }
  | .ok r =>
    match parse_score r with
    | .error e => { score := 10, reason := "eval_error: " ++ e.emsg.take 100, eval_cost := 0 }
    | .ok sr => { score := sr.1, reason := sr.2, eval_cost := r.cost }

/-- C6: whenever the judge call (or its cost computation) raises,
`evaluate` does not propagate the exception: it returns score 10,
`eval_cost` 0, and a reason string flagging the failure. -/
theorem evaluate_fail_open (e : PyErr) :
    evaluate (.error e) =
      { score := 10, reason := "eval_error: " ++ e.emsg.take 100, eval_cost := 0 } := rfl

/-- The judge reply of `tests/test_quality.py::test_score_capped_at_10`:
raw text `'\x7b"score": 15, "reason": "over"\x7d'`, which strict JSON
parsing accepts with score 15 (and on which the regex would also match
15). -/
def overTenReply : JudgeReply :=
  { json := .ok 15 "over"
    regexScore := some 15
    raw := "\x7b\"score\": 15, \"reason\": \"over\"\x7d"
    cost := 1/100000 }

/-- Counterexample to C10: for the judge reply with raw text
`'\x7b"score": 15, "reason": "over"\x7d'`, `evaluate` returns score 15,
which is not between 1 and 10 — the JSON path of `_parse_score` does not
cap (the repository's own test asserts this very value). -/
theorem evaluate_score_out_of_range_counterexample :
    (evaluate (.ok overTenReply)).score = 15 ∧
    ¬ (1 ≤ (evaluate (.ok overTenReply)).score ∧ (evaluate (.ok overTenReply)).score ≤ 10) := by
  constructor
  · rfl
  · intro h
    have := h.2
    rw [show (evaluate (.ok overTenReply)).score = 15 from rfl] at this
    norm_num at this

/-- C10 (amended): whenever the returned score does not come from the
strict-JSON stage (the judge call failed, the JSON stage soft- or
hard-failed), `evaluate`'s score is at most 10 — in particular every
regex-extracted score is capped at 10 and every fail-open score is
exactly 10.  Scores from successfully JSON-parsed replies pass through
unclamped (see the counterexample), and a regex-extracted score can also
be 0, below the claimed lower bound. -/
theorem evaluate_score_le_ten_off_json_path (call : Except PyErr JudgeReply)
    (h : ∀ r, call = .ok r → ∀ s reason, r.json ≠ .ok s reason) :
    (evaluate call).score ≤ 10 := by
  cases call with
  | error e => norm_num [evaluate]
  | ok r =>
    have hj := h r rfl
    cases hjson : r.json with
    | ok s reason => exact absurd hjson (hj s reason)
    | softFail =>
      cases hre : r.regexScore with
      | some k =>
        simp only [evaluate, parse_score, hjson, hre]
        exact min_le_right _ _
      | none => norm_num [evaluate, parse_score, hjson, hre]
    | hardFail e => norm_num [evaluate, parse_score, hjson]

/-- Witness for the amended C10 at a concrete failed judge call. -/
theorem evaluate_score_le_ten_off_json_path_witness :
    (evaluate (.error ⟨"APIConnectionError", "judge unreachable"⟩)).score ≤ 10 :=
  evaluate_score_le_ten_off_json_path (.error ⟨"APIConnectionError", "judge unreachable"⟩)
    (fun _ hr => Except.noConfusion hr)

/-! ## Run store — `memory/db.py` and `memory/log_handler.py`

The SQLite `task_runs` table is modelled as a `List Row` holding the
fields the log handler writes (wall-clock timestamp, environment name,
tenant/caller ids, trace id and the compression-length metrics are
omitted — none of them is consulted by the code under scrutiny).
`insert_run` appends and returns the new sequential row id;
`get_cumulative_cost` is `SELECT SUM(total_cost) FROM task_runs`. -/

structure Row where
  model : String
  task_level : Int
  status : String
  error_type : Option String
  error_message : Option String
  prompt_tokens : Nat
  output_tokens : Nat
  prompt_cost : ℚ
  completion_cost : ℚ
  total_cost : ℚ
  budget : Option ℚ
  budget_exceeded : Bool
  router_reason : String
  compressed_prompt : String
  actual_cost : Option ℚ
  actual_output_tokens : Option Nat
deriving DecidableEq

/-- `memory.db.insert_run`: append one record, return `(store', row_id)`
with the server-assigned sequential id. -/
def insert_run (store : List Row) (row : Row) : List Row × Nat :=
  (store ++ [row], store.length + 1)

/-- `memory.db.get_cumulative_cost`: `COALESCE(SUM(total_cost), 0.0)`. -/
def get_cumulative_cost (store : List Row) : ℚ :=
  (store.map Row.total_cost).sum

/-! ## Orchestrator — `core/agent_loop.py`

`AgentLoop.run_task` is modelled as a function of
* a `Config` (the values read from `config.config` at construction),
* the external `Collaborators` (pricing oracle plus the completion
  provider and judge outcomes, indexed by call number),
* the current run store, and
* the `Request` (the arguments of `run_task`).

It returns the full observable outcome: the returned result dict or the
re-raised exception, the new store, the cumulative-cost value read, and
the provider/judge call trace.  Store operations are modelled as total
(the degraded "swallow logging failures while handling an error" path of
lines 269–271 is not exercised). -/

structure CompletionResp where
  /-- `response.choices[0].message.content or ""`. -/
  content : String
  /-- `litellm.completion_cost(completion_response=response)`. -/
  cost : ℚ
  /-- `response.usage.completion_tokens`; `none` models a falsy
  `response.usage` (line 174's `if usage:`). -/
  usage : Option Nat

structure Collaborators where
  pricing : PricingOracle
  /-- Outcome of the i-th `litellm.completion` task call of this run
  (0-based); `Except.error` models a raised provider exception. -/
  completions : Nat → Except PyErr CompletionResp
  /-- Outcome of the i-th judge call of this run (0-based), fed to
  `evaluate`. -/
  judges : Nat → Except PyErr JudgeReply

structure Config where
  table : ModelTable
  budget : ℚ
  quality_eval_enabled : Bool
  quality_threshold : Int
  quality_max_retries : Nat

structure Request where
  prompt : String
  expected_output_tokens : Nat
  task_level : Int
  model_override : Option String
  budget_override : Option ℚ
  execute : Bool

/-- The returned result dict (fields relevant to the claims; the
`trace_id`, length/ratio metrics and `latency_ms` are omitted). -/
structure RunResult where
  model : String
  prompt_tokens : Nat
  output_tokens : Nat
  prompt_cost : ℚ
  completion_cost : ℚ
  total_cost : ℚ
  compressed_prompt : String
  budget_exceeded : Bool
  budget : ℚ
  router_reason : String
  response : String
  actual_cost : Option ℚ
  actual_output_tokens : Option Nat
  quality_score : Option Int
  quality_reason : Option String
  quality_retries : Option Nat
  quality_eval_cost : Option ℚ
  original_model : Option String
  status : String
  log_id : Nat
  cumulative_cost : ℚ

/-- The observable outcome of one `run_task` invocation. -/
structure RunOutcome where
  /-- The returned dict, or the re-raised exception. -/
  result : Except PyErr RunResult
  store : List Row
  /-- The value produced by the run's cumulative-cost read (also computed,
  though discarded, on the error path, lines 268). -/
  cumulative : ℚ
  /-- Number of `litellm.completion` task calls made (attempted calls
  included). -/
  completion_calls : Nat
  /-- Number of judge evaluations performed. -/
  judge_calls : Nat
  /-- The model id of each task call, in order. -/
  called_models : List String

/-- Python truthiness of the `model_override` argument: `None` and the
empty string are both falsy in `model_override or …` (lines 92 and 157). -/
def truthyOverride : Option String → Option String
  | none => none
  | some m => if m = "" then none else some m

/-- The effective budget: per-call override if given, else the configured
default (line 65). -/
def effectiveBudget (cfg : Config) (req : Request) : ℚ :=
  (req.budget_override).getD cfg.budget

/-- Step 2 of the pipeline: `model_override or router.route_task(level)`. -/
def chosenModel (cfg : Config) (req : Request) : Except PyErr String :=
  match truthyOverride req.model_override with
  | some m => .ok m
  | none => route_task cfg.table req.task_level

/-- Re-routing inside the quality loop (line 157):
`model_override or router.route_task(current_level)`. -/
def rerouteOf (cfg : Config) (req : Request) (lvl : Int) : Except PyErr String :=
  match truthyOverride req.model_override with
  | some m => .ok m
  | none => route_task cfg.table lvl

/-- The `router_reason` string of lines 93–96. -/
def routerReason (req : Request) : String :=
  match truthyOverride req.model_override with
  | some m => "override:" ++ m
  | none => "router:level=" ++ toString req.task_level

/-- The loop state accepted at exit of the `for _attempt` loop
(lines 135–166): the last completed call's data plus the tracked quality
state, as read by lines 168–180. -/
structure LoopAccept where
  content : String
  actual_cost : ℚ
  usage : Option Nat
  quality_score : Option Int
  quality_reason : Option String
  quality_retries : Nat
  total_eval_cost : ℚ
  /-- `current_model` at loop exit (note: after an escalation decision on
  the final attempt this is the *re-routed* model, lines 154–162). -/
  model : String

/-- Loop exit: the call counters and call trace are always produced; `res`
is the accepted state or an exception escaping the loop body. -/
structure LoopExit where
  cIdx : Nat
  jIdx : Nat
  called : List String
  res : Except PyErr LoopAccept

/-- The `for _attempt in range(max_attempts)` loop of lines 135–166.
`fuel` is the number of iterations still allowed *after* the current one
(initially `max_attempts - 1`).  Each iteration: make the task call,
evaluate if quality evaluation is enabled, then accept (score meets the
threshold, or already at level 3), escalate and continue (score below
threshold, level < 3, iterations remain), or fall off the end of the
range — Python's `continue` against an exhausted range, which still keeps
the escalated `current_model`/`quality_retries`. -/
def attemptLoop (co : Collaborators) (enabled : Bool) (threshold : Int)
    (reroute : Int → Except PyErr String) :
    Nat → Int → String → Nat → ℚ → Nat → Nat → List String → LoopExit
  | fuel, level, model, retries, evalCost, cIdx, jIdx, called =>
    match co.completions cIdx with
    | .error e => ⟨cIdx + 1, jIdx, called ++ [model], .error e⟩
    | .ok resp =>
      if enabled then
        let er := evaluate (co.judges jIdx)
        let evalCost' := evalCost + er.eval_cost
        if threshold ≤ er.score then
          ⟨cIdx + 1, jIdx + 1, called ++ [model],
           .ok ⟨resp.content, resp.cost, resp.usage, some er.score, some er.reason,
                retries, evalCost', model⟩⟩
        else if level < 3 then
          match reroute (level + 1) with
          | .error e => ⟨cIdx + 1, jIdx + 1, called ++ [model], .error e⟩
          | .ok model' =>
            match fuel with
            | 0 =>
              ⟨cIdx + 1, jIdx + 1, called ++ [model],
               .ok ⟨resp.content, resp.cost, resp.usage, some er.score, some er.reason,
                    retries + 1, evalCost', model'⟩⟩
            | fuel' + 1 =>
              attemptLoop co enabled threshold reroute fuel' (level + 1) model'
                (retries + 1) evalCost' (cIdx + 1) (jIdx + 1) (called ++ [model])
        else
          ⟨cIdx + 1, jIdx + 1, called ++ [model],
           .ok ⟨resp.content, resp.cost, resp.usage, some er.score, some er.reason,
                retries, evalCost', model⟩⟩
      else
        ⟨cIdx + 1, jIdx, called ++ [model],
         .ok ⟨resp.content, resp.cost, resp.usage, none, none, retries, evalCost, model⟩⟩

/-- The fixed replacement for an empty or whitespace-only model response
(line 171). -/
def emptyResponseMsg : String :=
  "[Empty response] Model returned no content. Try increasing --tokens or rephrasing."

/-- `LogHandler.log_run` applied to a successful/dry-run/rejected result
dict (`memory/log_handler.py` lines 14–68). -/
def rowOfResult (r : RunResult) (task_level : Int) : Row :=
  { model := r.model
    task_level := task_level
    status := r.status
    error_type := none
    error_message := none
    prompt_tokens := r.prompt_tokens
    output_tokens := r.output_tokens
    prompt_cost := r.prompt_cost
    completion_cost := r.completion_cost
    total_cost := r.total_cost
    budget := some r.budget
    budget_exceeded := r.budget_exceeded
    router_reason := r.router_reason
    compressed_prompt := r.compressed_prompt
    actual_cost := r.actual_cost
    actual_output_tokens := r.actual_output_tokens }

/-- `str(e).split("\n")[0] if str(e) else repr(e)` (line 233): the
exception message's first line, or `TypeName()` for an empty message. -/
def errMsgOf (e : PyErr) : String :=
  if e.emsg = "" then e.ename ++ "()" else String.mk (e.emsg.data.takeWhile (· ≠ '\n'))

/-- The minimal error record of lines 243–265, as persisted by
`log_run`: status `error`, zero costs, error kind and first-line message,
no stack trace. -/
def errorRow (effective_budget : ℚ) (expected_output_tokens : Nat)
    (task_level : Int) (e : PyErr) : Row :=
  { model := "unknown"
    task_level := task_level
    status := "error"
    error_type := some e.ename
    error_message := some (errMsgOf e)
    prompt_tokens := 0
    output_tokens := expected_output_tokens
    prompt_cost := 0
    completion_cost := 0
    total_cost := 0
    budget := some effective_budget
    budget_exceeded := false
    router_reason := ""
    compressed_prompt := ""
    actual_cost := none
    actual_output_tokens := none }

/-- Common tail of every branch: persist one row (step 7), read the
cumulative cost (step 8), assemble the outcome.  `mk` builds the final
result from the new row id and the cumulative-cost value. -/
def commitRun (store : List Row) (row : Row) (mk : Nat → ℚ → Except PyErr RunResult)
    (cc jc : Nat) (called : List String) : RunOutcome :=
  let inserted := insert_run store row
  let cum := get_cumulative_cost inserted.1
  { result := mk inserted.2 cum
    store := inserted.1
    cumulative := cum
    completion_calls := cc
    judge_calls := jc
    called_models := called }

/-- The `except` handler of lines 230–273: persist the minimal error
record, read the cumulative cost (line 268, discarded), re-raise. -/
def runError (store : List Row) (req : Request) (effective_budget : ℚ)
    (e : PyErr) (cc jc : Nat) (called : List String) : RunOutcome :=
  commitRun store (errorRow effective_budget req.expected_output_tokens req.task_level e)
    (fun _ _ => .error e) cc jc called

/-- `AgentLoop.run_task`. -/
def run_task (cfg : Config) (co : Collaborators) (store : List Row)
    (req : Request) : RunOutcome :=
  let effective_budget := effectiveBudget cfg req
  let compressed := compressS req.prompt
  match chosenModel cfg req with
  | .error e => runError store req effective_budget e 0 0 []
  | .ok model_name =>
    let est := estimate co.pricing compressed req.expected_output_tokens model_name
    let budget_exceeded : Bool := decide (effective_budget < est.total_cost)
    let base : RunResult :=
      { model := est.model
        prompt_tokens := est.prompt_tokens
        output_tokens := est.output_tokens
        prompt_cost := est.prompt_cost
        completion_cost := est.completion_cost
        total_cost := est.total_cost
        compressed_prompt := compressed
        budget_exceeded := budget_exceeded
        budget := effective_budget
        router_reason := routerReason req
        response := ""
        actual_cost := none
        actual_output_tokens := none
        quality_score := none
        quality_reason := none
        quality_retries := none
        quality_eval_cost := none
        original_model := none
        status := ""
        log_id := 0
        cumulative_cost := 0 }
    if req.execute && !budget_exceeded then
      let fuel := if cfg.quality_eval_enabled then cfg.quality_max_retries else 0
      let ex := attemptLoop co cfg.quality_eval_enabled cfg.quality_threshold
        (rerouteOf cfg req) fuel req.task_level model_name 0 0 0 0 []
      match ex.res with
      | .error e => runError store req effective_budget e ex.cIdx ex.jIdx ex.called
      | .ok acc =>
        let pre : RunResult :=
          { base with
            response := if pyStrip acc.content ≠ "" then acc.content else emptyResponseMsg
            actual_cost := some acc.actual_cost
            model := acc.model
            actual_output_tokens := acc.usage
            quality_score := acc.quality_score
            quality_reason := acc.quality_reason
            quality_retries := some acc.quality_retries
            quality_eval_cost := some acc.total_eval_cost
            original_model := if 0 < acc.quality_retries then some model_name else none
            status := "executed" }
        commitRun store (rowOfResult pre req.task_level)
          (fun id cum => .ok { pre with log_id := id, cumulative_cost := cum })
          ex.cIdx ex.jIdx ex.called
    else
      let pre : RunResult :=
        { base with
          response :=
            if budget_exceeded then "[Budget exceeded] Would use " ++ model_name
            else "[Dry-run] Would use " ++ model_name
          status := if budget_exceeded then "rejected_budget" else "dry_run" }
      commitRun store (rowOfResult pre req.task_level)
        (fun id cum => .ok { pre with log_id := id, cumulative_cost := cum })
        0 0 []

/-! ## Claims about the orchestrator -/

/-- C1: on `execute = true` with the estimated total cost strictly above
the effective budget, `run_task` makes no completion-provider call and no
quality evaluation, and returns a result with `budget_exceeded = true`,
status `rejected_budget`, unset `actual_cost`, and the placeholder
response naming the model that would have been used. -/
theorem run_task_budget_gate (cfg : Config) (co : Collaborators) (store : List Row)
    (req : Request) (m : String)
    (hexec : req.execute = true)
    (hroute : chosenModel cfg req = .ok m)
    (hover : effectiveBudget cfg req <
      (estimate co.pricing (compressS req.prompt) req.expected_output_tokens m).total_cost) :
    (run_task cfg co store req).completion_calls = 0 ∧
    (run_task cfg co store req).judge_calls = 0 ∧
    ∃ r, (run_task cfg co store req).result = .ok r ∧
      r.budget_exceeded = true ∧ r.status = "rejected_budget" ∧
      r.actual_cost = none ∧ r.quality_score = none ∧
      r.response = "[Budget exceeded] Would use " ++ m := by
  have hb : decide (effectiveBudget cfg req <
      (estimate co.pricing (compressS req.prompt) req.expected_output_tokens m).total_cost) = true :=
    decide_eq_true hover
  unfold run_task
  rw [hroute]
  simp only [hb, hexec, Bool.not_true, Bool.and_false, Bool.false_eq_true, if_false,
    if_true, reduceIte]
  exact ⟨rfl, rfl, _, rfl, rfl, rfl, rfl, rfl, rfl⟩

/-- A pricing oracle with a constant token count and flat per-token
prices. -/
def demoPricing : PricingOracle :=
  { count_tokens := fun _ _ => 5
    cost_per_token := fun _ p c => some ((p : ℚ) / 1000, (c : ℚ) / 1000) }

/-- A judge-call outcome whose strict JSON parse yields the given score. -/
def judgeScore (n : Int) : Except PyErr JudgeReply :=
  .ok { json := .ok n "reason", regexScore := some 5, raw := "", cost := 1/10000 }

/-- Collaborators whose i-th judge call scores `scores i` and whose task
calls all succeed with a fixed response. -/
def demoCollab (scores : Nat → Int) : Collaborators :=
  { pricing := demoPricing
    completions := fun _ => .ok { content := "an answer", cost := 1/500, usage := some 5 }
    judges := fun i => judgeScore (scores i) }

/-- Base configuration mirroring the quality tests: threshold 7,
one quality retry, evaluation enabled, demo model table. -/
def demoCfg : Config :=
  { table := demoTable
    budget := 10
    quality_eval_enabled := true
    quality_threshold := 7
    quality_max_retries := 1 }

/-- A level-1 execute request with a zero per-call budget override. -/
def overBudgetReq : Request :=
  { prompt := "hello world"
    expected_output_tokens := 50
    task_level := 1
    model_override := none
    budget_override := some 0
    execute := true }

/-- Witness for C1: with a zero budget override the level-1 run is
rejected without any provider or judge call. -/
theorem run_task_budget_gate_witness :
    (run_task demoCfg (demoCollab fun _ => 3) [] overBudgetReq).completion_calls = 0 ∧
    (run_task demoCfg (demoCollab fun _ => 3) [] overBudgetReq).judge_calls = 0 ∧
    ∃ r, (run_task demoCfg (demoCollab fun _ => 3) [] overBudgetReq).result = .ok r ∧
      r.budget_exceeded = true ∧ r.status = "rejected_budget" ∧
      r.actual_cost = none ∧ r.quality_score = none ∧
      r.response = "[Budget exceeded] Would use " ++ "deepseek/deepseek-chat" :=
  run_task_budget_gate demoCfg (demoCollab fun _ => 3) [] overBudgetReq
    "deepseek/deepseek-chat" rfl rfl
    (by norm_num [effectiveBudget, demoCfg, overBudgetReq, estimate, demoCollab, demoPricing])

theorem commitRun_store (store : List Row) (row : Row)
    (mk : Nat → ℚ → Except PyErr RunResult) (cc jc : Nat) (cm : List String) :
    (commitRun store row mk cc jc cm).store = store ++ [row] := rfl

theorem commitRun_result (store : List Row) (row : Row)
    (mk : Nat → ℚ → Except PyErr RunResult) (cc jc : Nat) (cm : List String) :
    (commitRun store row mk cc jc cm).result =
      mk (store.length + 1) (((store ++ [row]).map Row.total_cost).sum) := rfl

/-- Every branch of `run_task` ends in a single `commitRun` against the
incoming store; error results only arise from the minimal error record. -/
theorem run_task_is_commit (cfg : Config) (co : Collaborators) (store : List Row)
    (req : Request) :
    ∃ row mk cc jc cm, run_task cfg co store req = commitRun store row mk cc jc cm ∧
      ((∀ id cum, ∃ r, mk id cum = .ok r) ∨
        (row.status = "error" ∧ row.total_cost = 0 ∧ ∀ id cum, ∃ e, mk id cum = .error e)) := by
  cases hroute : chosenModel cfg req with
  | error e =>
    refine ⟨errorRow (effectiveBudget cfg req) req.expected_output_tokens req.task_level e,
      fun _ _ => .error e, 0, 0, [], ?_, Or.inr ⟨rfl, rfl, fun _ _ => ⟨e, rfl⟩⟩⟩
    unfold run_task
    rw [hroute]
    rfl
  | ok m =>
    unfold run_task
    rw [hroute]
    dsimp only
    split
    · -- execute branch
      split
      · -- loop escaped with an exception
        rename_i e _
        exact ⟨_, fun _ _ => .error e, _, _, _, rfl, Or.inr ⟨rfl, rfl, fun _ _ => ⟨e, rfl⟩⟩⟩
      · -- loop accepted
        exact ⟨_, _, _, _, _, rfl, Or.inl (fun _ _ => ⟨_, rfl⟩)⟩
    · -- dry-run / rejected_budget branch
      exact ⟨_, _, _, _, _, rfl, Or.inl (fun _ _ => ⟨_, rfl⟩)⟩

/-- C2: every `run_task` invocation — success, dry-run, rejection or
re-raised error — appends exactly one row to the run store (on the error
path a minimal record with status `error` and zero costs), and the
cumulative-cost value read at the end of the run is the sum of
`total_cost` over all persisted rows including the new one. -/
theorem run_task_single_append (cfg : Config) (co : Collaborators) (store : List Row)
    (req : Request) :
    ∃ row, (run_task cfg co store req).store = store ++ [row] ∧
      (run_task cfg co store req).cumulative = ((store ++ [row]).map Row.total_cost).sum ∧
      (∀ e, (run_task cfg co store req).result = .error e →
        row.status = "error" ∧ row.total_cost = 0) := by
  obtain ⟨row, mk, cc, jc, cm, heq, hcase⟩ := run_task_is_commit cfg co store req
  refine ⟨row, by rw [heq]; rfl, by rw [heq]; rfl, ?_⟩
  intro e he
  rcases hcase with hok | herr
  · exfalso
    obtain ⟨r, hr⟩ := hok (store.length + 1) (((store ++ [row]).map Row.total_cost).sum)
    rw [heq, commitRun_result, hr] at he
    exact Except.noConfusion he
  · exact ⟨herr.1, herr.2.1⟩

/-- Witness for C2 at a concrete over-budget run on an empty store. -/
theorem run_task_single_append_witness :
    ∃ row, (run_task demoCfg (demoCollab fun _ => 3) [] overBudgetReq).store = [] ++ [row] ∧
      (run_task demoCfg (demoCollab fun _ => 3) [] overBudgetReq).cumulative =
        (([] ++ [row]).map Row.total_cost).sum ∧
      (∀ e, (run_task demoCfg (demoCollab fun _ => 3) [] overBudgetReq).result = .error e →
        row.status = "error" ∧ row.total_cost = 0) :=
  run_task_single_append demoCfg (demoCollab fun _ => 3) [] overBudgetReq

/-! ### Stepping lemmas for the quality loop -/

theorem attemptLoop_comp_error (co : Collaborators) (enabled : Bool) (threshold : Int)
    (reroute : Int → Except PyErr String) (fuel : Nat) (level : Int) (model : String)
    (retries : Nat) (ec : ℚ) (ci ji : Nat) (ca : List String) (e : PyErr)
    (hc : co.completions ci = .error e) :
    attemptLoop co enabled threshold reroute fuel level model retries ec ci ji ca =
      ⟨ci + 1, ji, ca ++ [model], .error e⟩ := by
  rw [attemptLoop, hc]

theorem attemptLoop_disabled (co : Collaborators) (threshold : Int)
    (reroute : Int → Except PyErr String) (fuel : Nat) (level : Int) (model : String)
    (retries : Nat) (ec : ℚ) (ci ji : Nat) (ca : List String) (resp : CompletionResp)
    (hc : co.completions ci = .ok resp) :
    attemptLoop co false threshold reroute fuel level model retries ec ci ji ca =
      ⟨ci + 1, ji, ca ++ [model],
       .ok ⟨resp.content, resp.cost, resp.usage, none, none, retries, ec, model⟩⟩ := by
  rw [attemptLoop, hc]
  rfl

theorem attemptLoop_accept (co : Collaborators) (threshold : Int)
    (reroute : Int → Except PyErr String) (fuel : Nat) (level : Int) (model : String)
    (retries : Nat) (ec : ℚ) (ci ji : Nat) (ca : List String) (resp : CompletionResp)
    (hc : co.completions ci = .ok resp)
    (hacc : threshold ≤ (evaluate (co.judges ji)).score) :
    attemptLoop co true threshold reroute fuel level model retries ec ci ji ca =
      ⟨ci + 1, ji + 1, ca ++ [model],
       .ok ⟨resp.content, resp.cost, resp.usage, some (evaluate (co.judges ji)).score,
            some (evaluate (co.judges ji)).reason, retries,
            ec + (evaluate (co.judges ji)).eval_cost, model⟩⟩ := by
  rw [attemptLoop, hc]
  simp only [if_pos hacc, if_true]

theorem attemptLoop_break_at_three (co : Collaborators) (threshold : Int)
    (reroute : Int → Except PyErr String) (fuel : Nat) (level : Int) (model : String)
    (retries : Nat) (ec : ℚ) (ci ji : Nat) (ca : List String) (resp : CompletionResp)
    (hc : co.completions ci = .ok resp)
    (hlow : ¬ threshold ≤ (evaluate (co.judges ji)).score)
    (hlvl : ¬ level < 3) :
    attemptLoop co true threshold reroute fuel level model retries ec ci ji ca =
      ⟨ci + 1, ji + 1, ca ++ [model],
       .ok ⟨resp.content, resp.cost, resp.usage, some (evaluate (co.judges ji)).score,
            some (evaluate (co.judges ji)).reason, retries,
            ec + (evaluate (co.judges ji)).eval_cost, model⟩⟩ := by
  rw [attemptLoop, hc]
  simp only [if_neg hlow, if_neg hlvl, if_true]

theorem attemptLoop_escalate_exhaust (co : Collaborators) (threshold : Int)
    (reroute : Int → Except PyErr String) (level : Int) (model : String)
    (retries : Nat) (ec : ℚ) (ci ji : Nat) (ca : List String) (resp : CompletionResp)
    (m' : String)
    (hc : co.completions ci = .ok resp)
    (hlow : ¬ threshold ≤ (evaluate (co.judges ji)).score)
    (hlvl : level < 3)
    (hre : reroute (level + 1) = .ok m') :
    attemptLoop co true threshold reroute 0 level model retries ec ci ji ca =
      ⟨ci + 1, ji + 1, ca ++ [model],
       .ok ⟨resp.content, resp.cost, resp.usage, some (evaluate (co.judges ji)).score,
            some (evaluate (co.judges ji)).reason, retries + 1,
            ec + (evaluate (co.judges ji)).eval_cost, m'⟩⟩ := by
  rw [attemptLoop, hc]
  simp only [if_neg hlow, if_pos hlvl, hre, if_true]

theorem attemptLoop_escalate_step (co : Collaborators) (threshold : Int)
    (reroute : Int → Except PyErr String) (fuel : Nat) (level : Int) (model : String)
    (retries : Nat) (ec : ℚ) (ci ji : Nat) (ca : List String) (resp : CompletionResp)
    (m' : String)
    (hc : co.completions ci = .ok resp)
    (hlow : ¬ threshold ≤ (evaluate (co.judges ji)).score)
    (hlvl : level < 3)
    (hre : reroute (level + 1) = .ok m') :
    attemptLoop co true threshold reroute (fuel + 1) level model retries ec ci ji ca =
      attemptLoop co true threshold reroute fuel (level + 1) m' (retries + 1)
        (ec + (evaluate (co.judges ji)).eval_cost) (ci + 1) (ji + 1) (ca ++ [model]) := by
  conv_lhs => rw [attemptLoop]
  rw [hc]
  simp only [if_neg hlow, if_pos hlvl, hre, if_true]

/-- Number of task calls the loop makes when every judge score is below
the threshold: one call per attempt, escalating until either the attempt
range (`1 + max_retries`) or level 3 is reached — whichever comes first. -/
def exhaustCalls : Nat → Int → Nat
  | 0, _ => 1
  | fuel + 1, level => if level < 3 then 1 + exhaustCalls fuel (level + 1) else 1

theorem exhaustCalls_succ (fuel : Nat) (level : Int) :
    exhaustCalls (fuel + 1) level =
      if level < 3 then 1 + exhaustCalls fuel (level + 1) else 1 := rfl

theorem exhaustCalls_pos (fuel : Nat) (level : Int) : 1 ≤ exhaustCalls fuel level := by
  cases fuel with
  | zero => exact le_refl 1
  | succ f =>
    unfold exhaustCalls
    by_cases h : level < 3
    · simp [h]
    · simp [h]

theorem exhaustCalls_le (fuel : Nat) : ∀ level : Int, exhaustCalls fuel level ≤ fuel + 1 := by
  induction fuel with
  | zero => intro level; exact le_refl 1
  | succ f ih =>
    intro level
    unfold exhaustCalls
    by_cases h : level < 3
    · simp only [if_pos h]
      have := ih (level + 1)
      omega
    · simp only [if_neg h]
      omega

/-- When every judge score is below the threshold and every task call
succeeds, the loop accepts the last attempt (never an error), makes
exactly `exhaustCalls fuel level` task calls and as many judge calls, and
the accepted content is that of the last task call made. -/
theorem attemptLoop_exhaust (co : Collaborators) (threshold : Int)
    (reroute : Int → Except PyErr String) (contents : Nat → CompletionResp)
    (hcomp : ∀ i, co.completions i = .ok (contents i))
    (hjudge : ∀ i, (evaluate (co.judges i)).score < threshold)
    (hre : ∀ l, ∃ m, reroute l = .ok m) :
    ∀ (fuel : Nat) (level : Int) (model : String) (retries : Nat) (ec : ℚ)
      (ci ji : Nat) (ca : List String),
    ∃ acc : LoopAccept,
      (attemptLoop co true threshold reroute fuel level model retries ec ci ji ca).res = .ok acc ∧
      (attemptLoop co true threshold reroute fuel level model retries ec ci ji ca).cIdx =
        ci + exhaustCalls fuel level ∧
      (attemptLoop co true threshold reroute fuel level model retries ec ci ji ca).jIdx =
        ji + exhaustCalls fuel level ∧
      acc.content = (contents (ci + exhaustCalls fuel level - 1)).content := by
  intro fuel
  induction fuel with
  | zero =>
    intro level model retries ec ci ji ca
    have hlow : ¬ threshold ≤ (evaluate (co.judges ji)).score := not_le.mpr (hjudge ji)
    by_cases hlvl : level < 3
    · obtain ⟨m', hm'⟩ := hre (level + 1)
      rw [attemptLoop_escalate_exhaust co threshold reroute level model retries ec ci ji ca
        (contents ci) m' (hcomp ci) hlow hlvl hm']
      exact ⟨_, rfl, rfl, rfl, by simp [exhaustCalls]⟩
    · rw [attemptLoop_break_at_three co threshold reroute 0 level model retries ec ci ji ca
        (contents ci) (hcomp ci) hlow hlvl]
      exact ⟨_, rfl, rfl, rfl, by simp [exhaustCalls]⟩
  | succ f ih =>
    intro level model retries ec ci ji ca
    have hlow : ¬ threshold ≤ (evaluate (co.judges ji)).score := not_le.mpr (hjudge ji)
    by_cases hlvl : level < 3
    · obtain ⟨m', hm'⟩ := hre (level + 1)
      rw [attemptLoop_escalate_step co threshold reroute f level model retries ec ci ji ca
        (contents ci) m' (hcomp ci) hlow hlvl hm']
      obtain ⟨acc, hres, hci, hji, hcontent⟩ :=
        ih (level + 1) m' (retries + 1) (ec + (evaluate (co.judges ji)).eval_cost)
          (ci + 1) (ji + 1) (ca ++ [model])
      refine ⟨acc, hres, ?_, ?_, ?_⟩
      · rw [hci, exhaustCalls_succ, if_pos hlvl]
        omega
      · rw [hji, exhaustCalls_succ, if_pos hlvl]
        omega
      · have hidx : ci + 1 + exhaustCalls f (level + 1) - 1 =
            ci + exhaustCalls (f + 1) level - 1 := by
          rw [exhaustCalls_succ, if_pos hlvl]
          omega
        rw [hcontent, hidx]
    · rw [attemptLoop_break_at_three co threshold reroute (f + 1) level model retries ec ci ji ca
        (contents ci) (hcomp ci) hlow hlvl]
      refine ⟨_, rfl, ?_, ?_, ?_⟩ <;>
        simp [exhaustCalls, if_neg hlvl]

/-- C3: with quality evaluation enabled, judge scores [3, 9], threshold 7,
`max_retries = 1`, task level 1 and no model override, an executed run
makes exactly 2 completion calls and 2 judge calls, ends with
`quality_retries = 1`, reports the passing (second) attempt's model as the
result's model, and records the originally routed level-1 model in
`original_model`. -/
theorem run_task_quality_retry (cfg : Config) (co : Collaborators) (store : List Row)
    (req : Request) (m1 m2 : String) (r0 r1 : CompletionResp)
    (hen : cfg.quality_eval_enabled = true)
    (hth : cfg.quality_threshold = 7)
    (hmr : cfg.quality_max_retries = 1)
    (hlvl : req.task_level = 1)
    (hov : req.model_override = none)
    (hexec : req.execute = true)
    (hroute1 : chosenModel cfg req = .ok m1)
    (hroute2 : route_task cfg.table 2 = .ok m2)
    (hc0 : co.completions 0 = .ok r0)
    (hc1 : co.completions 1 = .ok r1)
    (hj0 : (evaluate (co.judges 0)).score = 3)
    (hj1 : (evaluate (co.judges 1)).score = 9)
    (hbud : ¬ effectiveBudget cfg req <
      (estimate co.pricing (compressS req.prompt) req.expected_output_tokens m1).total_cost) :
    (run_task cfg co store req).completion_calls = 2 ∧
    (run_task cfg co store req).judge_calls = 2 ∧
    ∃ r, (run_task cfg co store req).result = .ok r ∧
      r.quality_retries = some 1 ∧ r.model = m2 ∧ r.original_model = some m1 := by
  have hb : decide (effectiveBudget cfg req <
      (estimate co.pricing (compressS req.prompt) req.expected_output_tokens m1).total_cost) = false :=
    decide_eq_false hbud
  have hlow0 : ¬ (7 : Int) ≤ (evaluate (co.judges 0)).score := by rw [hj0]; decide
  have hacc1 : (7 : Int) ≤ (evaluate (co.judges 1)).score := by rw [hj1]; decide
  have hre2 : rerouteOf cfg req ((1 : Int) + 1) = .ok m2 := by
    show rerouteOf cfg req 2 = .ok m2
    simp [rerouteOf, hov, truthyOverride, hroute2]
  have hloop : attemptLoop co true 7 (rerouteOf cfg req) 1 1 m1 0 0 0 0 [] =
      ⟨1 + 1, 1 + 1, [m1] ++ [m2],
       .ok ⟨r1.content, r1.cost, r1.usage, some (evaluate (co.judges 1)).score,
            some (evaluate (co.judges 1)).reason, 1,
            0 + (evaluate (co.judges 0)).eval_cost + (evaluate (co.judges 1)).eval_cost, m2⟩⟩ :=
    (attemptLoop_escalate_step co 7 (rerouteOf cfg req) 0 1 m1 0 0 0 0 [] r0 m2 hc0 hlow0
        (by decide) hre2).trans
      (attemptLoop_accept co 7 (rerouteOf cfg req) 0 2 m2 1
        (0 + (evaluate (co.judges 0)).eval_cost) 1 1 [m1] r1 hc1 hacc1)
  unfold run_task
  rw [hroute1]
  simp only [hexec, hb, hen, hth, hmr, hlvl, Bool.not_false, Bool.and_true, Bool.true_and,
    Bool.and_self, if_true, reduceIte]
  rw [hloop]
  exact ⟨rfl, rfl, _, rfl, rfl, rfl, rfl⟩

/-- A plain level-1 execute request with the configured default budget. -/
def levelOneReq : Request :=
  { prompt := "hello world"
    expected_output_tokens := 50
    task_level := 1
    model_override := none
    budget_override := none
    execute := true }

/-- Witness for C3: the demo configuration with judge scores [3, 9]
escalates from the level-1 model to the level-2 model and accepts. -/
theorem run_task_quality_retry_witness :
    (run_task demoCfg (demoCollab fun i => if i = 0 then 3 else 9) [] levelOneReq).completion_calls = 2 ∧
    (run_task demoCfg (demoCollab fun i => if i = 0 then 3 else 9) [] levelOneReq).judge_calls = 2 ∧
    ∃ r, (run_task demoCfg (demoCollab fun i => if i = 0 then 3 else 9) [] levelOneReq).result = .ok r ∧
      r.quality_retries = some 1 ∧ r.model = "gpt-4o" ∧
      r.original_model = some "deepseek/deepseek-chat" :=
  run_task_quality_retry demoCfg (demoCollab fun i => if i = 0 then 3 else 9) [] levelOneReq
    "deepseek/deepseek-chat" "gpt-4o"
    { content := "an answer", cost := 1/500, usage := some 5 }
    { content := "an answer", cost := 1/500, usage := some 5 }
    rfl rfl rfl rfl rfl rfl rfl rfl rfl rfl (by decide) (by decide)
    (by norm_num [effectiveBudget, demoCfg, levelOneReq, estimate, demoCollab, demoPricing])

/-- C4 (amended): with quality evaluation enabled, when every judge score
is below the threshold and every task call succeeds, the executed run
still returns the last attempt's response with status `executed` (no error
is raised), making `exhaustCalls max_retries task_level` completion calls
— which is at most `1 + max_retries`, with equality only while escalation
is possible: once level 3 is reached with a failing score the loop breaks
early (line 164's `break  # already at L3, accept`). -/
theorem run_task_quality_exhaustion (cfg : Config) (co : Collaborators) (store : List Row)
    (req : Request) (m0 : String) (contents : Nat → CompletionResp)
    (hen : cfg.quality_eval_enabled = true)
    (hexec : req.execute = true)
    (hroute : chosenModel cfg req = .ok m0)
    (hre : ∀ l, ∃ m, rerouteOf cfg req l = .ok m)
    (hcomp : ∀ i, co.completions i = .ok (contents i))
    (hjudge : ∀ i, (evaluate (co.judges i)).score < cfg.quality_threshold)
    (hbud : ¬ effectiveBudget cfg req <
      (estimate co.pricing (compressS req.prompt) req.expected_output_tokens m0).total_cost)
    (hblank : pyStrip (contents
      (exhaustCalls cfg.quality_max_retries req.task_level - 1)).content ≠ "") :
    ∃ r, (run_task cfg co store req).result = .ok r ∧ r.status = "executed" ∧
      (run_task cfg co store req).completion_calls =
        exhaustCalls cfg.quality_max_retries req.task_level ∧
      (run_task cfg co store req).completion_calls ≤ 1 + cfg.quality_max_retries ∧
      r.response = (contents
        (exhaustCalls cfg.quality_max_retries req.task_level - 1)).content := by
  have hb : decide (effectiveBudget cfg req <
      (estimate co.pricing (compressS req.prompt) req.expected_output_tokens m0).total_cost) = false :=
    decide_eq_false hbud
  obtain ⟨acc, hres, hci, hji, hcontent⟩ :=
    attemptLoop_exhaust co cfg.quality_threshold (rerouteOf cfg req) contents hcomp hjudge hre
      cfg.quality_max_retries req.task_level m0 0 0 0 0 []
  unfold run_task
  rw [hroute]
  simp only [hexec, hb, hen, Bool.not_false, Bool.and_true, Bool.true_and, Bool.and_self,
    if_true, reduceIte]
  rw [hres]
  simp only [Nat.zero_add] at hci hcontent
  have hrespEq : (if pyStrip acc.content ≠ "" then acc.content else emptyResponseMsg) =
      (contents (exhaustCalls cfg.quality_max_retries req.task_level - 1)).content := by
    rw [hcontent]
    exact if_pos hblank
  have hE : exhaustCalls cfg.quality_max_retries req.task_level ≤
      1 + cfg.quality_max_retries := by
    have := exhaustCalls_le cfg.quality_max_retries req.task_level
    omega
  exact ⟨_, rfl, rfl, hci, le_trans (le_of_eq hci) hE, hrespEq⟩

/-- Witness for the amended C4: the demo configuration with all judge
scores 3 starting from level 1, where `exhaustCalls 1 1 = 2 = 1 + 1`. -/
theorem run_task_quality_exhaustion_witness :
    ∃ r, (run_task demoCfg (demoCollab fun _ => 3) [] levelOneReq).result = .ok r ∧
      r.status = "executed" ∧
      (run_task demoCfg (demoCollab fun _ => 3) [] levelOneReq).completion_calls =
        exhaustCalls demoCfg.quality_max_retries levelOneReq.task_level ∧
      (run_task demoCfg (demoCollab fun _ => 3) [] levelOneReq).completion_calls ≤
        1 + demoCfg.quality_max_retries ∧
      r.response = ((fun _ : Nat => ({ content := "an answer", cost := 1/500, usage := some 5 } :
        CompletionResp))
        (exhaustCalls demoCfg.quality_max_retries levelOneReq.task_level - 1)).content :=
  run_task_quality_exhaustion demoCfg (demoCollab fun _ => 3) [] levelOneReq
    "deepseek/deepseek-chat"
    (fun _ => { content := "an answer", cost := 1/500, usage := some 5 })
    rfl rfl rfl
    (fun l => by
      obtain ⟨id, hid, -⟩ := (route_task_spec demoTable l).2 (by decide)
      exact ⟨id, by simpa [rerouteOf, truthyOverride, levelOneReq, demoCfg] using hid⟩)
    (fun _ => rfl) (fun _ => (by decide : (3 : Int) < 7))
    (by norm_num [effectiveBudget, demoCfg, levelOneReq, estimate, demoCollab, demoPricing])
    (by decide)

/-- Executing a run whose routed level is already 3 (or higher) with a
failing first judge score: a single task call and a single judge call are
made, then the loop breaks and accepts. -/
theorem run_task_break_at_three (cfg : Config) (co : Collaborators) (store : List Row)
    (req : Request) (m0 : String) (resp : CompletionResp)
    (hen : cfg.quality_eval_enabled = true)
    (hexec : req.execute = true)
    (hroute : chosenModel cfg req = .ok m0)
    (hlvl3 : ¬ req.task_level < 3)
    (hc0 : co.completions 0 = .ok resp)
    (hlow : ¬ cfg.quality_threshold ≤ (evaluate (co.judges 0)).score)
    (hbud : ¬ effectiveBudget cfg req <
      (estimate co.pricing (compressS req.prompt) req.expected_output_tokens m0).total_cost) :
    (run_task cfg co store req).completion_calls = 1 ∧
    (run_task cfg co store req).judge_calls = 1 ∧
    ∃ r, (run_task cfg co store req).result = .ok r ∧ r.status = "executed" := by
  have hb : decide (effectiveBudget cfg req <
      (estimate co.pricing (compressS req.prompt) req.expected_output_tokens m0).total_cost) = false :=
    decide_eq_false hbud
  unfold run_task
  rw [hroute]
  simp only [hexec, hb, hen, Bool.not_false, Bool.and_true, Bool.true_and, Bool.and_self,
    if_true, reduceIte]
  rw [attemptLoop_break_at_three co cfg.quality_threshold (rerouteOf cfg req)
    cfg.quality_max_retries req.task_level m0 0 0 0 0 [] resp hc0 hlow hlvl3]
  exact ⟨rfl, rfl, _, rfl, rfl⟩

/-- A level-3 execute request with the configured default budget. -/
def levelThreeReq : Request :=
  { prompt := "hello world"
    expected_output_tokens := 50
    task_level := 3
    model_override := none
    budget_override := none
    execute := true }

/-- Counterexample to C4 as stated: with `max_retries = 1`, every judge
score below the threshold, and a task routed at level 3, the run makes
exactly 1 completion call, not `1 + max_retries = 2` — the loop breaks
early at the maximum level instead of using the full attempt range. -/
theorem run_task_exhaust_calls_counterexample :
    (∀ i, (evaluate ((demoCollab fun _ => 3).judges i)).score < demoCfg.quality_threshold) ∧
    (run_task demoCfg (demoCollab fun _ => 3) [] levelThreeReq).completion_calls = 1 ∧
    (run_task demoCfg (demoCollab fun _ => 3) [] levelThreeReq).completion_calls ≠
      1 + demoCfg.quality_max_retries := by
  have h := run_task_break_at_three demoCfg (demoCollab fun _ => 3) [] levelThreeReq
    "anthropic/claude-sonnet-4" { content := "an answer", cost := 1/500, usage := some 5 }
    rfl rfl rfl (by decide) rfl (by decide)
    (by norm_num [effectiveBudget, demoCfg, levelThreeReq, estimate, demoCollab, demoPricing])
  refine ⟨fun _ => (by decide : (3 : Int) < 7), h.1, ?_⟩
  rw [h.1]
  decide

/-- With threshold 7, `max_retries = 1`, level 1, no override and judge
scores [3, 3], the loop escalates twice: once between the two attempts and
once more on the final attempt (lines 154–162 update `quality_retries`
and `current_model` before discovering the attempt range is exhausted).
The returned `model` is the level-3 model, which was never called; the two
calls went to the level-1 and level-2 models. -/
theorem run_task_escalation_exhaust_model (cfg : Config) (co : Collaborators)
    (store : List Row) (req : Request) (m1 m2 m3 : String) (r0 r1 : CompletionResp)
    (hen : cfg.quality_eval_enabled = true)
    (hth : cfg.quality_threshold = 7)
    (hmr : cfg.quality_max_retries = 1)
    (hlvl : req.task_level = 1)
    (hov : req.model_override = none)
    (hexec : req.execute = true)
    (hroute1 : chosenModel cfg req = .ok m1)
    (hroute2 : route_task cfg.table 2 = .ok m2)
    (hroute3 : route_task cfg.table 3 = .ok m3)
    (hc0 : co.completions 0 = .ok r0)
    (hc1 : co.completions 1 = .ok r1)
    (hj0 : (evaluate (co.judges 0)).score = 3)
    (hj1 : (evaluate (co.judges 1)).score = 3)
    (hbud : ¬ effectiveBudget cfg req <
      (estimate co.pricing (compressS req.prompt) req.expected_output_tokens m1).total_cost) :
    (run_task cfg co store req).called_models = [m1] ++ [m2] ∧
    ∃ r, (run_task cfg co store req).result = .ok r ∧
      r.model = m3 ∧ r.quality_retries = some 2 ∧ r.original_model = some m1 := by
  have hb : decide (effectiveBudget cfg req <
      (estimate co.pricing (compressS req.prompt) req.expected_output_tokens m1).total_cost) = false :=
    decide_eq_false hbud
  have hlow0 : ¬ (7 : Int) ≤ (evaluate (co.judges 0)).score := by rw [hj0]; decide
  have hlow1 : ¬ (7 : Int) ≤ (evaluate (co.judges 1)).score := by rw [hj1]; decide
  have hre2 : rerouteOf cfg req ((1 : Int) + 1) = .ok m2 := by
    show rerouteOf cfg req 2 = .ok m2
    simp [rerouteOf, hov, truthyOverride, hroute2]
  have hre3 : rerouteOf cfg req ((2 : Int) + 1) = .ok m3 := by
    show rerouteOf cfg req 3 = .ok m3
    simp [rerouteOf, hov, truthyOverride, hroute3]
  have hloop : attemptLoop co true 7 (rerouteOf cfg req) 1 1 m1 0 0 0 0 [] =
      ⟨1 + 1, 1 + 1, [m1] ++ [m2],
       .ok ⟨r1.content, r1.cost, r1.usage, some (evaluate (co.judges 1)).score,
            some (evaluate (co.judges 1)).reason, 1 + 1,
            0 + (evaluate (co.judges 0)).eval_cost + (evaluate (co.judges 1)).eval_cost, m3⟩⟩ :=
    (attemptLoop_escalate_step co 7 (rerouteOf cfg req) 0 1 m1 0 0 0 0 [] r0 m2 hc0 hlow0
        (by decide) hre2).trans
      (attemptLoop_escalate_exhaust co 7 (rerouteOf cfg req) 2 m2 1
        (0 + (evaluate (co.judges 0)).eval_cost) 1 1 [m1] r1 m3 hc1 hlow1 (by decide) hre3)
  unfold run_task
  rw [hroute1]
  simp only [hexec, hb, hen, hth, hmr, hlvl, Bool.not_false, Bool.and_true, Bool.true_and,
    Bool.and_self, if_true, reduceIte]
  rw [hloop]
  exact ⟨rfl, _, rfl, rfl, rfl, rfl⟩

/-- Failing input for C5: with the demo table, threshold 7,
`max_retries = 1`, level 1 and judge scores [3, 3], the two completion
calls go to the level-1 and level-2 models, but the returned result's
`model` field is the level-3 model — a model to which no call was ever
made (so `model` is not the model of the final completion call). -/
theorem run_task_model_field_failing_input :
    (run_task demoCfg (demoCollab fun _ => 3) [] levelOneReq).called_models =
      ["deepseek/deepseek-chat", "gpt-4o"] ∧
    ∃ r, (run_task demoCfg (demoCollab fun _ => 3) [] levelOneReq).result = .ok r ∧
      r.model = "anthropic/claude-sonnet-4" ∧
      r.model ∉ (run_task demoCfg (demoCollab fun _ => 3) [] levelOneReq).called_models := by
  have h := run_task_escalation_exhaust_model demoCfg (demoCollab fun _ => 3) [] levelOneReq
    "deepseek/deepseek-chat" "gpt-4o" "anthropic/claude-sonnet-4"
    { content := "an answer", cost := 1/500, usage := some 5 }
    { content := "an answer", cost := 1/500, usage := some 5 }
    rfl rfl rfl rfl rfl rfl rfl rfl rfl rfl rfl rfl rfl
    (by norm_num [effectiveBudget, demoCfg, levelOneReq, estimate, demoCollab, demoPricing])
  obtain ⟨hcalled, r, hres, hmodel, -, -⟩ := h
  refine ⟨hcalled, r, hres, hmodel, ?_⟩
  rw [hcalled, hmodel]
  decide

end CostAgent
